import Mathlib

/-!
Shallow embedding of the Twitch OAuth flow of `backend/app/routers/auth/twitch.py`
(routes `/login`, `/callback`, `/refresh`) together with the user store it
manipulates.  Network responses from the provider are inputs to the embedded
functions; the database is an explicit list of `User` rows threaded through
the callback.
-/

namespace Valory

/-- Configuration surface read by the router (`app.config.settings`). -/
structure Settings where
  TWITCH_CLIENT_ID : String
  TWITCH_CLIENT_SECRET : String
  REDIRECT_URI : String
  FRONTEND_URL : String
deriving Repr, DecidableEq

/-- `string.ascii_letters + string.digits`: the population sampled by
`random.choices` in `generate_random_string`. -/
def alphabetChars : List Char :=
  "abcdefghijklmnopqrstuvwxyzABCDEFGHIJKLMNOPQRSTUVWXYZ0123456789".toList

/-- `generate_random_string(length)`: `random.choices` draws `length`
independent samples from the population; the random source is modelled as a
function `pick` giving the sample index at each position (reduced modulo the
population size, as `choices` only ever yields population members). -/
def generate_random_string (pick : Nat → Nat) (length : Nat) : String :=
  String.mk ((List.range length).map
    (fun i => alphabetChars.getD (pick i % alphabetChars.length) 'a'))

/-! ### `urllib.parse.urlencode` (default `quote_via=quote_plus`) -/

/-- UTF-8 encoding of a single code point, as bytes (numbers < 256). -/
def utf8Bytes (c : Char) : List Nat :=
  let n := c.toNat
  if n < 128 then [n]
  else if n < 2048 then [192 + n / 64, 128 + n % 64]
  else if n < 65536 then [224 + n / 4096, 128 + (n / 64) % 64, 128 + n % 64]
  else [240 + n / 262144, 128 + (n / 4096) % 64, 128 + (n / 64) % 64, 128 + n % 64]

/-- The bytes `urllib.parse.quote` never escapes (`ALWAYS_SAFE`):
letters, digits, `_`, `.`, `-`, `~`. -/
def isSafeByte (b : Nat) : Bool :=
  (65 ≤ b && b ≤ 90) || (97 ≤ b && b ≤ 122) || (48 ≤ b && b ≤ 57) ||
  (b == 95) || (b == 46) || (b == 45) || (b == 126)

/-- Upper-case hexadecimal digit, as used by `quote`'s `%XX` escapes. -/
def hexDigit (n : Nat) : Char :=
  "0123456789ABCDEF".toList.getD (n % 16) '0'

/-- `quote_plus` applied to one byte: safe bytes pass through, a space
becomes `+`, every other byte becomes `%XX`. -/
def quoteByte (b : Nat) : List Char :=
  if isSafeByte b then [Char.ofNat b]
  else if b == 32 then ['+']
  else ['%', hexDigit (b / 16), hexDigit (b % 16)]

/-- `quote_plus` applied to one character. -/
def quotePlusChar (c : Char) : List Char :=
  (utf8Bytes c).flatMap quoteByte

def quotePlusList (cs : List Char) : List Char :=
  cs.flatMap quotePlusChar

/-- `urllib.parse.quote_plus`. -/
def quote_plus (s : String) : String :=
  String.mk (quotePlusList s.toList)

/-- `'&'.join(pieces)`. -/
def joinAmp : List (List Char) → List Char
  | [] => []
  | [p] => p
  | p :: ps => p ++ '&' :: joinAmp ps

/-- `urllib.parse.urlencode(query_params)`: each pair rendered as
`quote_plus(k)=quote_plus(v)`, joined with `&`. -/
def urlencode (ps : List (String × String)) : String :=
  String.mk (joinAmp (ps.map
    (fun p => quotePlusList p.1.toList ++ '=' :: quotePlusList p.2.toList)))

/-! ### Query-string parsing (used to state what a built URL carries) -/

/-- Drop everything up to and including the first `?`. -/
def dropThroughQM : List Char → List Char
  | [] => []
  | c :: cs => if c = '?' then cs else dropThroughQM cs

/-- Split on every `&`. -/
def splitAmp : List Char → List (List Char)
  | [] => [[]]
  | c :: cs =>
    if c = '&' then [] :: splitAmp cs
    else
      match splitAmp cs with
      | [] => [[c]]
      | p :: ps => (c :: p) :: ps

/-- Split a `key=value` piece at its first `=`. -/
def splitFirstEq : List Char → List Char × List Char
  | [] => ([], [])
  | c :: cs =>
    if c = '=' then ([], cs)
    else
      let r := splitFirstEq cs
      (c :: r.1, r.2)

/-- The (still percent-encoded) value of query parameter `key` embedded in
`url`'s query string, if any. -/
def getQueryValue (url : String) (key : String) : Option String :=
  (((splitAmp (dropThroughQM url.toList)).map splitFirstEq).filter
      (fun p => p.1 = key.toList)).head?.map (fun p => String.mk p.2)

/-! ### `/login` -/

/-- Modelled from the spec: the numeric HTTP status of the framework's
`RedirectResponse` constructor (the constructor itself is not under `src/`);
§6 records every redirect of this flow as a 302. -/
def redirectStatusCode : Nat := 302

/-- The response of `twitch_login`: a redirect plus the `set_cookie` call. -/
structure LoginResponse where
  statusCode : Nat
  redirectUrl : String
  cookieName : String
  cookieValue : String
deriving Repr, DecidableEq

/-- The `query_params` dict built by `twitch_login`. -/
def authQueryParams (s : Settings) (state : String) : List (String × String) :=
  [("response_type", "code"),
   ("client_id", s.TWITCH_CLIENT_ID),
   ("redirect_uri", s.REDIRECT_URI),
   ("state", state)]

/-- `GET /login` (`twitch_login`): generates a 16-character state, redirects to
the Twitch authorization URL and sets the `twitch_state` cookie. -/
def twitch_login (s : Settings) (pick : Nat → Nat) : LoginResponse :=
  let state := generate_random_string pick 16
  { statusCode := redirectStatusCode
    redirectUrl := "https://id.twitch.tv/oauth2/authorize?" ++ urlencode (authQueryParams s state)
    cookieName := "twitch_state"
    cookieValue := state }

/-! ### Upstream HTTP calls -/

/-- A response of the token endpoint (`POST https://id.twitch.tv/oauth2/token`):
HTTP status plus the JSON body, abstracted as a string-valued object. -/
structure UpstreamResponse where
  status : Nat
  body : List (String × String)
deriving Repr, DecidableEq

/-- Python `dict.get` on a JSON object / parsed form: the value of the last
occurrence of the key, if any. -/
def dictGet (d : List (String × String)) (k : String) : Option String :=
  ((d.filter (fun p => p.1 = k)).getLast?).map (fun p => p.2)

/-- `fetch_twitch_token(data)`: raises `HTTPException(response.status)` unless
the provider answers 200, in which case the JSON body is returned as-is. -/
def fetch_twitch_token (resp : UpstreamResponse) : Except Nat (List (String × String)) :=
  if resp.status ≠ 200 then .error resp.status else .ok resp.body

/-- One element of `data["data"]` in the user-info endpoint's JSON answer. -/
structure TwitchUserRecord where
  id : String
  login : String
  display_name : String
  profile_image_url : String
deriving Repr, DecidableEq

/-- A response of the user-info endpoint (`GET https://api.twitch.tv/helix/users`):
HTTP status plus, when the JSON body is truthy and carries a `"data"` key, the
list under that key. -/
structure UserInfoResponse where
  status : Nat
  dataField : Option (List TwitchUserRecord)
deriving Repr, DecidableEq

/-- The `user_data` dict assembled by `fetch_user_info`. -/
structure UserData where
  id : String
  username : String
  display_name : String
  avatar_url : String
deriving Repr, DecidableEq

/-- `fetch_user_info(access_token)`: raises `HTTPException(response.status)`
unless the provider answers 200; then returns the profile extracted from
`data["data"][0]` when that list is present and non-empty, `None` otherwise. -/
def fetch_user_info (resp : UserInfoResponse) : Except Nat (Option UserData) :=
  if resp.status ≠ 200 then .error resp.status
  else
    match resp.dataField with
    | some (u :: _) => .ok (some ⟨u.id, u.login, u.display_name, u.profile_image_url⟩)
    | _ => .ok none

/-! ### The user store -/

/-- Modelled from the spec: the `User` entity of `app.models.users` is not
under `src/`; its fields follow §3 of the spec (`id` assigned at creation,
`twitch_id` the lookup key, a profile snapshot, and the plaintext token pair;
the token fields are optional since the callback stores `dict.get` results). -/
structure User where
  id : Nat
  twitch_id : String
  username : String
  twitch_display_name : String
  avatar_url : String
  twitch_access_token : Option String
  twitch_refresh_token : Option String
deriving Repr, DecidableEq

/-- `session.exec(select(User).where(User.twitch_id == tid))` followed by
`.first()`. -/
def findUserByTwitchId (db : List User) (tid : String) : Option User :=
  (db.filter (fun u => u.twitch_id = tid)).head?

/-! ### `/callback` -/

/-- An outbound HTTP call issued by a handler, with the data relevant to the
spec: the form body of a token-endpoint POST, or the bearer token interpolated
into the `Authorization` header of the user-info GET. -/
inductive UpstreamCall where
  | tokenPost (formData : List (String × String))
  | userInfoGet (bearerToken : Option String)
deriving Repr, DecidableEq

/-- The successful response of the callback: a redirect plus the
`delete_cookie` call. -/
structure CallbackRedirect where
  statusCode : Nat
  url : String
  deletedCookies : List String
deriving Repr, DecidableEq

/-- Outcome of one callback request: the database after the request, the
upstream calls issued, and either a redirect or an `HTTPException` status. -/
structure CallbackOutcome where
  db : List User
  calls : List UpstreamCall
  result : Except Nat CallbackRedirect
deriving Repr

/-- `dict.get(k)` on `request.query_params` / `request.cookies`. -/
def getParam (ps : List (String × String)) (k : String) : Option String :=
  ((ps.filter (fun p => p.1 = k)).getLast?).map (fun p => p.2)

/-- Python truthiness test `not x` for `x: Optional[str]`: true on `None` and
on the empty string. -/
def falsyOpt : Option String → Bool
  | none => true
  | some s => s = ""

/-- The `data` dict POSTed to the token endpoint by the callback. -/
def tokenRequestData (s : Settings) (code : String) : List (String × String) :=
  [("client_id", s.TWITCH_CLIENT_ID),
   ("client_secret", s.TWITCH_CLIENT_SECRET),
   ("code", code),
   ("grant_type", "authorization_code"),
   ("redirect_uri", s.REDIRECT_URI)]

/-- The response built at the end of the callback: redirect to
`FRONTEND_URL + "/configurator"` with the `twitch_state` cookie deleted. -/
def successRedirect (s : Settings) : CallbackRedirect :=
  { statusCode := redirectStatusCode
    url := s.FRONTEND_URL ++ "/configurator"
    deletedCookies := ["twitch_state"] }

/-- `GET /callback` (`callback`): validates query parameters and the
`twitch_state` cookie, exchanges the code for tokens, fetches the profile,
inserts a `User` row when the `twitch_id` is new, and redirects. -/
def callback (s : Settings) (queryParams cookies : List (String × String))
    (tokResp : UpstreamResponse) (uiResp : UserInfoResponse)
    (db : List User) : CallbackOutcome :=
  if queryParams.isEmpty then ⟨db, [], .error 400⟩
  else
    let code := getParam queryParams "code"
    let state := getParam queryParams "state"
    let stored_state := getParam cookies "twitch_state"
    if falsyOpt code || falsyOpt state || state ≠ stored_state then ⟨db, [], .error 400⟩
    else
      let data := tokenRequestData s (code.getD "")
      match fetch_twitch_token tokResp with
      | .error st => ⟨db, [.tokenPost data], .error st⟩
      | .ok body =>
        let access_token := dictGet body "access_token"
        let refresh_tok := dictGet body "refresh_token"
        match fetch_user_info uiResp with
        | .error st => ⟨db, [.tokenPost data, .userInfoGet access_token], .error st⟩
        | .ok none => ⟨db, [.tokenPost data, .userInfoGet access_token], .ok (successRedirect s)⟩
        | .ok (some user_info) =>
          match findUserByTwitchId db user_info.id with
          | some _ =>
            ⟨db, [.tokenPost data, .userInfoGet access_token], .ok (successRedirect s)⟩
          | none =>
            let new_user : User :=
              { id := db.length
                twitch_id := user_info.id
                username := user_info.username
                twitch_display_name := user_info.display_name
                avatar_url := user_info.avatar_url
                twitch_access_token := access_token
                twitch_refresh_token := refresh_tok }
            ⟨db ++ [new_user], [.tokenPost data, .userInfoGet access_token],
              .ok (successRedirect s)⟩

/-! ### `/refresh` -/

/-- The `data` dict POSTed to the token endpoint by `refresh_token`. -/
def refreshRequestData (s : Settings) (rt : String) : List (String × String) :=
  [("client_id", s.TWITCH_CLIENT_ID),
   ("client_secret", s.TWITCH_CLIENT_SECRET),
   ("refresh_token", rt),
   ("grant_type", "refresh_token")]

/-- Outcome of one refresh request: the upstream calls issued and either the
provider's JSON body or an `HTTPException` status. -/
structure RefreshOutcome where
  calls : List UpstreamCall
  result : Except Nat (List (String × String))
deriving Repr

/-- `POST /refresh` (`refresh_token`): one POST to the token endpoint with
`grant_type=refresh_token`; the provider's JSON is returned as-is. -/
def refresh_token (s : Settings) (rt : String) (resp : UpstreamResponse) : RefreshOutcome :=
  ⟨[.tokenPost (refreshRequestData s rt)], fetch_twitch_token (resp)⟩

/-! ### Sequential operation semantics over the user store -/

/-- One inbound request to the router, with the upstream responses it would
observe. -/
inductive Op where
  | loginOp (pick : Nat → Nat)
  | callbackOp (queryParams cookies : List (String × String))
      (tokResp : UpstreamResponse) (uiResp : UserInfoResponse)
  | refreshOp (rt : String) (resp : UpstreamResponse)

/-- Effect of one request on the database: `twitch_login` and `refresh_token`
take no session at all; `callback` acts as embedded above. -/
def step (s : Settings) (db : List User) : Op → List User
  | .loginOp _ => db
  | .callbackOp qp ck tok ui => (callback s qp ck tok ui db).db
  | .refreshOp _ _ => db

/-- At most one `User` row per distinct `twitch_id`. -/
def uniqueTwitchIds (db : List User) : Prop :=
  db.Pairwise (fun a b => a.twitch_id ≠ b.twitch_id)

/-- Fixed sample configuration used by the concrete witnesses below. -/
def sampleSettings : Settings :=
  { TWITCH_CLIENT_ID := "cid"
    TWITCH_CLIENT_SECRET := "sec"
    REDIRECT_URI := "http://redirect"
    FRONTEND_URL := "http://front" }

/-- A stored row used by the concrete witnesses below. -/
def sampleStoredUser : User :=
  { id := 0
    twitch_id := "42"
    username := "old"
    twitch_display_name := "Old"
    avatar_url := "http://old"
    twitch_access_token := some "oldat"
    twitch_refresh_token := some "oldrt" }

/-! ### Helper lemmas -/

theorem fetch_twitch_token_of_ok (resp : UpstreamResponse) (h : resp.status = 200) :
    fetch_twitch_token resp = .ok resp.body := by
  simp [fetch_twitch_token, h]

theorem fetch_twitch_token_of_err (resp : UpstreamResponse) (h : resp.status ≠ 200) :
    fetch_twitch_token resp = .error resp.status := by
  simp [fetch_twitch_token, h]

theorem findUserByTwitchId_eq_none (db : List User) (tid : String)
    (h : ∀ u ∈ db, u.twitch_id ≠ tid) : findUserByTwitchId db tid = none := by
  simp only [findUserByTwitchId, List.head?_eq_none_iff, List.filter_eq_nil_iff]
  intro u hu
  simpa using h u hu

theorem isSafeByte_lt (b : Nat) (h : isSafeByte b = true) : b < 128 := by
  simp [isSafeByte] at h
  rcases h with h | h | h | h | h | h | h <;> omega

theorem safeByteChar_ne : ∀ b : Nat, b < 128 →
    (isSafeByte b = true → Char.ofNat b ≠ '&' ∧ Char.ofNat b ≠ '=') := by decide

theorem hexDigit_ne (n : Nat) : hexDigit n ≠ '&' ∧ hexDigit n ≠ '=' := by
  have h16 : n % 16 < 16 := Nat.mod_lt _ (by omega)
  have hall : ∀ k : Nat, k < 16 →
      ("0123456789ABCDEF".toList.getD k '0' ≠ '&' ∧
       "0123456789ABCDEF".toList.getD k '0' ≠ '=') := by decide
  exact hall _ h16

theorem quoteByte_ne (b : Nat) : ∀ x ∈ quoteByte b, x ≠ '&' ∧ x ≠ '=' := by
  intro x hx
  by_cases hsafe : isSafeByte b = true
  · simp [quoteByte, hsafe] at hx
    subst hx
    exact safeByteChar_ne b (isSafeByte_lt b hsafe) hsafe
  · by_cases h32 : b = 32
    · subst h32
      simp [quoteByte, (by decide : isSafeByte 32 = false)] at hx
      subst hx
      exact ⟨by decide, by decide⟩
    · simp [quoteByte, hsafe, h32] at hx
      rcases hx with hx | hx | hx <;> subst hx
      · exact ⟨by decide, by decide⟩
      · exact hexDigit_ne _
      · exact hexDigit_ne _

theorem quotePlusList_ne (cs : List Char) : ∀ x ∈ quotePlusList cs, x ≠ '&' ∧ x ≠ '=' := by
  intro x hx
  simp only [quotePlusList, quotePlusChar, List.mem_flatMap] at hx
  obtain ⟨c, _, b, _, hb⟩ := hx
  exact quoteByte_ne b x hb

theorem quotePlusList_eq_self (cs : List Char) (h : ∀ c ∈ cs, c ∈ alphabetChars) :
    quotePlusList cs = cs := by
  have hchar : ∀ c ∈ alphabetChars, quotePlusChar c = [c] := by decide
  induction cs with
  | nil => rfl
  | cons c cs ih =>
    have hc : quotePlusChar c = [c] := hchar c (h c (List.mem_cons_self c cs))
    have ht : quotePlusList cs = cs := ih (fun d hd => h d (List.mem_cons_of_mem c hd))
    show quotePlusChar c ++ quotePlusList cs = c :: cs
    rw [hc, ht]
    rfl

theorem dropThroughQM_append (xs ys : List Char) (h : '?' ∉ xs) :
    dropThroughQM (xs ++ '?' :: ys) = ys := by
  induction xs with
  | nil => simp [dropThroughQM]
  | cons c cs ih =>
    rw [List.mem_cons] at h
    push_neg at h
    rw [List.cons_append]
    simp [dropThroughQM, Ne.symm h.1, ih h.2]

theorem splitAmp_no_amp (xs : List Char) (h : '&' ∉ xs) : splitAmp xs = [xs] := by
  induction xs with
  | nil => rfl
  | cons c cs ih =>
    rw [List.mem_cons] at h
    push_neg at h
    simp [splitAmp, Ne.symm h.1, ih h.2]

theorem splitAmp_append (xs ys : List Char) (h : '&' ∉ xs) :
    splitAmp (xs ++ '&' :: ys) = xs :: splitAmp ys := by
  induction xs with
  | nil => simp [splitAmp]
  | cons c cs ih =>
    rw [List.mem_cons] at h
    push_neg at h
    rw [List.cons_append]
    simp [splitAmp, Ne.symm h.1, ih h.2]

theorem splitFirstEq_append (k v : List Char) (h : '=' ∉ k) :
    splitFirstEq (k ++ '=' :: v) = (k, v) := by
  induction k with
  | nil => simp [splitFirstEq]
  | cons c cs ih =>
    rw [List.mem_cons] at h
    push_neg at h
    rw [List.cons_append]
    simp [splitFirstEq, Ne.symm h.1, ih h.2]

theorem queryPairs_of_four (k1 v1 k2 v2 k3 v3 k4 v4 : List Char)
    (hk1 : '=' ∉ k1) (hk2 : '=' ∉ k2) (hk3 : '=' ∉ k3) (hk4 : '=' ∉ k4)
    (ha1 : '&' ∉ k1 ++ '=' :: v1) (ha2 : '&' ∉ k2 ++ '=' :: v2)
    (ha3 : '&' ∉ k3 ++ '=' :: v3) (ha4 : '&' ∉ k4 ++ '=' :: v4) :
    (splitAmp (joinAmp [k1 ++ '=' :: v1, k2 ++ '=' :: v2,
        k3 ++ '=' :: v3, k4 ++ '=' :: v4])).map splitFirstEq
      = [(k1, v1), (k2, v2), (k3, v3), (k4, v4)] := by
  rw [show joinAmp [k1 ++ '=' :: v1, k2 ++ '=' :: v2, k3 ++ '=' :: v3, k4 ++ '=' :: v4]
      = (k1 ++ '=' :: v1) ++ '&' :: ((k2 ++ '=' :: v2) ++ '&' ::
        ((k3 ++ '=' :: v3) ++ '&' :: (k4 ++ '=' :: v4))) from rfl]
  rw [splitAmp_append _ _ ha1, splitAmp_append _ _ ha2, splitAmp_append _ _ ha3,
    splitAmp_no_amp _ ha4]
  simp only [List.map_cons, List.map_nil, splitFirstEq_append _ _ hk1,
    splitFirstEq_append _ _ hk2, splitFirstEq_append _ _ hk3, splitFirstEq_append _ _ hk4]

theorem generate_mem_alphabet (pick : Nat → Nat) (n : Nat) :
    ∀ c ∈ (generate_random_string pick n).toList, c ∈ alphabetChars := by
  intro c hc
  simp only [generate_random_string, String.toList, String.mk, List.mem_map,
    List.mem_range] at hc
  obtain ⟨i, _, hi⟩ := hc
  have hlt : pick i % alphabetChars.length < alphabetChars.length :=
    Nat.mod_lt _ (by decide)
  rw [← hi, List.getD_eq_getElem _ _ hlt]
  exact List.getElem_mem hlt

theorem getQueryValue_auth_url (s : Settings) (st : String)
    (hst : ∀ c ∈ st.toList, c ∈ alphabetChars) :
    getQueryValue ("https://id.twitch.tv/oauth2/authorize?" ++
      urlencode (authQueryParams s st)) "state" = some st := by
  have hkeq : ∀ a : List Char, '=' ∉ quotePlusList a := by
    intro a hx
    exact (quotePlusList_ne a _ hx).2 rfl
  have hamp : ∀ a b : List Char, '&' ∉ quotePlusList a ++ '=' :: quotePlusList b := by
    intro a b hx
    rcases List.mem_append.mp hx with hh | hh
    · exact (quotePlusList_ne a _ hh).1 rfl
    · rcases List.mem_cons.mp hh with hh | hh
      · exact absurd hh (by decide)
      · exact (quotePlusList_ne b _ hh).1 rfl
  have hdata : ("https://id.twitch.tv/oauth2/authorize?" ++
      urlencode (authQueryParams s st)).toList
      = "https://id.twitch.tv/oauth2/authorize".toList ++ '?' ::
        joinAmp [quotePlusList "response_type".toList ++ '=' :: quotePlusList "code".toList,
          quotePlusList "client_id".toList ++ '=' :: quotePlusList s.TWITCH_CLIENT_ID.toList,
          quotePlusList "redirect_uri".toList ++ '=' :: quotePlusList s.REDIRECT_URI.toList,
          quotePlusList "state".toList ++ '=' :: quotePlusList st.toList] := by
    have h1 : ("https://id.twitch.tv/oauth2/authorize?" : String).toList
        = "https://id.twitch.tv/oauth2/authorize".toList ++ ['?'] := by decide
    calc ("https://id.twitch.tv/oauth2/authorize?" ++
        urlencode (authQueryParams s st)).toList
        = "https://id.twitch.tv/oauth2/authorize?".toList ++
          (urlencode (authQueryParams s st)).toList := String.data_append _ _
      _ = ("https://id.twitch.tv/oauth2/authorize".toList ++ ['?']) ++
          joinAmp [quotePlusList "response_type".toList ++ '=' :: quotePlusList "code".toList,
            quotePlusList "client_id".toList ++ '=' :: quotePlusList s.TWITCH_CLIENT_ID.toList,
            quotePlusList "redirect_uri".toList ++ '=' :: quotePlusList s.REDIRECT_URI.toList,
            quotePlusList "state".toList ++ '=' :: quotePlusList st.toList] := by
          rw [h1]
          rfl
      _ = _ := by simp
  unfold getQueryValue
  rw [hdata, dropThroughQM_append _ _ (by decide)]
  rw [queryPairs_of_four _ _ _ _ _ _ _ _ (hkeq _) (hkeq _) (hkeq _) (hkeq _)
    (hamp _ _) (hamp _ _) (hamp _ _) (hamp _ _)]
  have e1 : quotePlusList "response_type".toList = "response_type".toList := by decide
  have e2 : quotePlusList "client_id".toList = "client_id".toList := by decide
  have e3 : quotePlusList "redirect_uri".toList = "redirect_uri".toList := by decide
  have e4 : quotePlusList "state".toList = "state".toList := by decide
  have henc : quotePlusList st.toList = st.toList := quotePlusList_eq_self _ hst
  rw [e1, e2, e3, e4, henc]
  have n1 : "response_type".toList ≠ "state".toList := by decide
  have n2 : "client_id".toList ≠ "state".toList := by decide
  have n3 : "redirect_uri".toList ≠ "state".toList := by decide
  simp [List.filter, n1, n2, n3]

/-! ### Claims -/

/-- C1: a callback request whose query string is empty, or whose `code` or
`state` query parameter is missing, or whose `state` does not exactly equal
the `twitch_state` cookie (including an absent cookie), fails with HTTP 400
and performs no database write. -/
theorem callback_invalid_request_400 (s : Settings)
    (qp ck : List (String × String)) (tok : UpstreamResponse)
    (ui : UserInfoResponse) (db : List User)
    (h : qp.isEmpty = true ∨ getParam qp "code" = none ∨ getParam qp "state" = none ∨
      getParam qp "state" ≠ getParam ck "twitch_state") :
    (callback s qp ck tok ui db).result = .error 400 ∧
    (callback s qp ck tok ui db).db = db := by
  rcases h with hq | hc | hs | hne
  · simp [callback, hq]
  · by_cases hq : qp.isEmpty <;> simp [callback, hq, falsyOpt, hc]
  · by_cases hq : qp.isEmpty <;> simp [callback, hq, falsyOpt, hs]
  · by_cases hq : qp.isEmpty <;> simp [callback, hq, hne]

/-- Closed witness for `callback_invalid_request_400`: a request whose `state`
does not match the cookie. -/
theorem callback_invalid_request_400_witness :
    (callback sampleSettings [("code", "c"), ("state", "x")] [("twitch_state", "y")]
        ⟨200, []⟩ ⟨200, none⟩ []).result = .error 400 ∧
    (callback sampleSettings [("code", "c"), ("state", "x")] [("twitch_state", "y")]
        ⟨200, []⟩ ⟨200, none⟩ []).db = [] :=
  callback_invalid_request_400 sampleSettings _ _ _ _ _ (by right; right; right; decide)

/-- C4: once state validation has passed, a non-200 answer of the token
endpoint makes the callback fail with that same status and leave the database
unchanged, and (the token call having succeeded) a non-200 answer of the
user-info endpoint does the same with its status. -/
theorem callback_propagates_upstream_status (s : Settings)
    (qp ck : List (String × String)) (tok : UpstreamResponse)
    (ui : UserInfoResponse) (db : List User)
    (hq : qp.isEmpty = false)
    (hc : falsyOpt (getParam qp "code") = false)
    (hs : falsyOpt (getParam qp "state") = false)
    (hm : getParam qp "state" = getParam ck "twitch_state") :
    (tok.status ≠ 200 →
      (callback s qp ck tok ui db).result = .error tok.status ∧
      (callback s qp ck tok ui db).db = db) ∧
    (tok.status = 200 → ui.status ≠ 200 →
      (callback s qp ck tok ui db).result = .error ui.status ∧
      (callback s qp ck tok ui db).db = db) := by
  constructor
  · intro ht
    simp [callback, hq, hc, hs, hm, hm ▸ hs, fetch_twitch_token_of_err tok ht]
  · intro ht hu
    simp [callback, hq, hc, hs, hm, hm ▸ hs, fetch_twitch_token_of_ok tok ht,
      fetch_user_info, hu]

/-- Closed witness for `callback_propagates_upstream_status`: a 503 from the
token endpoint propagates, and with the token call passing, a 500 from the
user-info endpoint propagates. -/
theorem callback_propagates_upstream_status_witness :
    ((callback sampleSettings [("code", "c"), ("state", "s")] [("twitch_state", "s")]
        ⟨503, []⟩ ⟨200, none⟩ []).result = .error 503 ∧
      (callback sampleSettings [("code", "c"), ("state", "s")] [("twitch_state", "s")]
        ⟨503, []⟩ ⟨200, none⟩ []).db = []) ∧
    ((callback sampleSettings [("code", "c"), ("state", "s")] [("twitch_state", "s")]
        ⟨200, []⟩ ⟨500, none⟩ []).result = .error 500 ∧
      (callback sampleSettings [("code", "c"), ("state", "s")] [("twitch_state", "s")]
        ⟨200, []⟩ ⟨500, none⟩ []).db = []) :=
  ⟨(callback_propagates_upstream_status sampleSettings _ _ ⟨503, []⟩ ⟨200, none⟩ []
      (by decide) (by decide) (by decide) (by decide)).1 (by decide),
   (callback_propagates_upstream_status sampleSettings _ _ ⟨200, []⟩ ⟨500, none⟩ []
      (by decide) (by decide) (by decide) (by decide)).2 (by decide) (by decide)⟩

/-- C7: a refresh request issues exactly one POST to the token endpoint, whose
form data carries `grant_type=refresh_token` and the caller's refresh token;
on a 200 answer the provider's JSON is returned unmodified; and the operation
never touches the user store. -/
theorem refresh_token_one_post_no_persistence (s : Settings) (rt : String)
    (resp : UpstreamResponse) (db : List User) (h : resp.status = 200) :
    (refresh_token s rt resp).calls = [.tokenPost (refreshRequestData s rt)] ∧
    dictGet (refreshRequestData s rt) "grant_type" = some "refresh_token" ∧
    dictGet (refreshRequestData s rt) "refresh_token" = some rt ∧
    (refresh_token s rt resp).result = .ok resp.body ∧
    step s db (.refreshOp rt resp) = db := by
  refine ⟨rfl, ?_, ?_, ?_, rfl⟩
  · simp [dictGet, refreshRequestData]
  · simp [dictGet, refreshRequestData]
  · simp [refresh_token, fetch_twitch_token_of_ok resp h]

/-- Closed witness for `refresh_token_one_post_no_persistence`. -/
theorem refresh_token_one_post_no_persistence_witness :
    (refresh_token sampleSettings "rr" ⟨200, [("access_token", "na")]⟩).calls =
      [.tokenPost (refreshRequestData sampleSettings "rr")] ∧
    dictGet (refreshRequestData sampleSettings "rr") "grant_type" = some "refresh_token" ∧
    dictGet (refreshRequestData sampleSettings "rr") "refresh_token" = some "rr" ∧
    (refresh_token sampleSettings "rr" ⟨200, [("access_token", "na")]⟩).result =
      .ok [("access_token", "na")] ∧
    step sampleSettings [] (.refreshOp "rr" ⟨200, [("access_token", "na")]⟩) = [] :=
  refresh_token_one_post_no_persistence sampleSettings "rr" _ [] (by decide)

/-- C8: the generator returns, for every requested length, a string of exactly
that many characters drawn from `[A-Za-z0-9]`; in particular the login state
token has exactly 16 characters. -/
theorem generate_random_string_alphanumeric (s : Settings) (pick : Nat → Nat) (n : Nat) :
    (generate_random_string pick n).length = n ∧
    (twitch_login s pick).cookieValue.length = 16 ∧
    ∀ c ∈ (generate_random_string pick n).toList,
      c ∈ alphabetChars ∧ (c.isAlpha ∨ c.isDigit) := by
  have hlen : ∀ m, (generate_random_string pick m).length = m := by
    intro m
    simp [generate_random_string, String.length]
  have hclass : ∀ c ∈ alphabetChars, c.isAlpha ∨ c.isDigit := by decide
  refine ⟨hlen n, hlen 16, ?_⟩
  intro c hc
  have hmem : c ∈ alphabetChars := by
    simp only [generate_random_string, String.toList, String.mk, List.mem_map,
      List.mem_range] at hc
    obtain ⟨i, _, hi⟩ := hc
    have hlt : pick i % alphabetChars.length < alphabetChars.length :=
      Nat.mod_lt _ (by decide)
    rw [← hi, List.getD_eq_getElem _ _ hlt]
    exact List.getElem_mem hlt
  exact ⟨hmem, hclass c hmem⟩

/-- Closed witness for `generate_random_string_alphanumeric`. -/
theorem generate_random_string_alphanumeric_witness :
    (generate_random_string (fun i => i) 16).length = 16 ∧
    ('a' ∈ alphabetChars ∧ ('a'.isAlpha ∨ 'a'.isDigit)) :=
  ⟨(generate_random_string_alphanumeric sampleSettings (fun i => i) 16).1,
   (generate_random_string_alphanumeric sampleSettings (fun i => i) 16).2.2 'a' (by decide)⟩

/-- C2: when validation passes, both upstream calls answer 200, and the
fetched profile's `twitch_id` matches no stored row, the callback appends
exactly one new `User` row carrying the fetched profile fields and the token
pair of the token endpoint's body. -/
theorem callback_creates_one_user (s : Settings)
    (qp ck : List (String × String)) (tok : UpstreamResponse)
    (ui : UserInfoResponse) (db : List User)
    (hq : qp.isEmpty = false)
    (hc : falsyOpt (getParam qp "code") = false)
    (hs : falsyOpt (getParam qp "state") = false)
    (hm : getParam qp "state" = getParam ck "twitch_state")
    (ht : tok.status = 200)
    (p : UserData) (hp : fetch_user_info ui = .ok (some p))
    (hnew : ∀ u ∈ db, u.twitch_id ≠ p.id) :
    (callback s qp ck tok ui db).db =
      db ++ [{ id := db.length
               twitch_id := p.id
               username := p.username
               twitch_display_name := p.display_name
               avatar_url := p.avatar_url
               twitch_access_token := dictGet tok.body "access_token"
               twitch_refresh_token := dictGet tok.body "refresh_token" }] := by
  simp [callback, hq, hc, hs, hm, hm ▸ hs, fetch_twitch_token_of_ok tok ht, hp,
    findUserByTwitchId_eq_none db p.id hnew]

/-- Closed witness for `callback_creates_one_user`. -/
theorem callback_creates_one_user_witness :
    (callback sampleSettings [("code", "c"), ("state", "s")] [("twitch_state", "s")]
        ⟨200, [("access_token", "at"), ("refresh_token", "rt")]⟩
        ⟨200, some [⟨"42", "alice", "Alice", "http://a"⟩]⟩ []).db =
      [{ id := 0
         twitch_id := "42"
         username := "alice"
         twitch_display_name := "Alice"
         avatar_url := "http://a"
         twitch_access_token := some "at"
         twitch_refresh_token := some "rt" }] :=
  callback_creates_one_user sampleSettings _ _ _ _ []
    (by decide) (by decide) (by decide) (by decide) (by decide)
    ⟨"42", "alice", "Alice", "http://a"⟩ rfl (by decide)

/-- C3: when validation passes, both upstream calls answer 200, and a `User`
row with the fetched profile's `twitch_id` already exists, the callback leaves
the database exactly as it was and still answers with the redirect to the
frontend URL. -/
theorem callback_existing_user_no_write (s : Settings)
    (qp ck : List (String × String)) (tok : UpstreamResponse)
    (ui : UserInfoResponse) (db : List User)
    (hq : qp.isEmpty = false)
    (hc : falsyOpt (getParam qp "code") = false)
    (hs : falsyOpt (getParam qp "state") = false)
    (hm : getParam qp "state" = getParam ck "twitch_state")
    (ht : tok.status = 200)
    (p : UserData) (hp : fetch_user_info ui = .ok (some p))
    (hold : ∃ u ∈ db, u.twitch_id = p.id) :
    (callback s qp ck tok ui db).db = db ∧
    (callback s qp ck tok ui db).result =
      .ok { statusCode := redirectStatusCode
            url := s.FRONTEND_URL ++ "/configurator"
            deletedCookies := ["twitch_state"] } := by
  obtain ⟨u, hu, hid⟩ := hold
  cases hfind : findUserByTwitchId db p.id with
  | none =>
    exfalso
    have hfil : db.filter (fun v => v.twitch_id = p.id) = [] := by
      simpa [findUserByTwitchId, List.head?_eq_none_iff] using hfind
    have hmem : u ∈ db.filter (fun v => v.twitch_id = p.id) := by
      simp [List.mem_filter, hu, hid]
    simp [hfil] at hmem
  | some w =>
    simp [callback, hq, hc, hs, hm, hm ▸ hs, fetch_twitch_token_of_ok tok ht, hp,
      hfind, successRedirect]

/-- Closed witness for `callback_existing_user_no_write`. -/
theorem callback_existing_user_no_write_witness :
    (callback sampleSettings [("code", "c"), ("state", "s")] [("twitch_state", "s")]
        ⟨200, [("access_token", "at2"), ("refresh_token", "rt2")]⟩
        ⟨200, some [⟨"42", "alice", "Alice", "http://a"⟩]⟩ [sampleStoredUser]).db =
      [sampleStoredUser] ∧
    (callback sampleSettings [("code", "c"), ("state", "s")] [("twitch_state", "s")]
        ⟨200, [("access_token", "at2"), ("refresh_token", "rt2")]⟩
        ⟨200, some [⟨"42", "alice", "Alice", "http://a"⟩]⟩ [sampleStoredUser]).result =
      .ok { statusCode := redirectStatusCode
            url := sampleSettings.FRONTEND_URL ++ "/configurator"
            deletedCookies := ["twitch_state"] } :=
  callback_existing_user_no_write sampleSettings _ _ _ _ [sampleStoredUser]
    (by decide) (by decide) (by decide) (by decide) (by decide)
    ⟨"42", "alice", "Alice", "http://a"⟩ rfl
    ⟨sampleStoredUser, by decide, by decide⟩

/-- C6: when validation passes and both upstream calls answer 200, the
callback answers with the redirect to `FRONTEND_URL + "/configurator"` and
deletes the `twitch_state` cookie, whether the profile names a new user, an
existing user, or no profile was returned at all. -/
theorem callback_redirects_on_success (s : Settings)
    (qp ck : List (String × String)) (tok : UpstreamResponse)
    (ui : UserInfoResponse) (db : List User)
    (hq : qp.isEmpty = false)
    (hc : falsyOpt (getParam qp "code") = false)
    (hs : falsyOpt (getParam qp "state") = false)
    (hm : getParam qp "state" = getParam ck "twitch_state")
    (ht : tok.status = 200) (hu : ui.status = 200) :
    (callback s qp ck tok ui db).result =
      .ok { statusCode := redirectStatusCode
            url := s.FRONTEND_URL ++ "/configurator"
            deletedCookies := ["twitch_state"] } := by
  obtain ⟨o, ho⟩ : ∃ o, fetch_user_info ui = .ok o := by
    unfold fetch_user_info
    rw [if_neg (by simp [hu])]
    rcases ui.dataField with _ | (_ | ⟨v, vs⟩)
    · exact ⟨none, rfl⟩
    · exact ⟨none, rfl⟩
    · exact ⟨some _, rfl⟩
  cases o with
  | none =>
    simp [callback, hq, hc, hs, hm, hm ▸ hs, fetch_twitch_token_of_ok tok ht, ho,
      successRedirect]
  | some p =>
    cases hfind : findUserByTwitchId db p.id with
    | none =>
      simp [callback, hq, hc, hs, hm, hm ▸ hs, fetch_twitch_token_of_ok tok ht, ho,
        hfind, successRedirect]
    | some w =>
      simp [callback, hq, hc, hs, hm, hm ▸ hs, fetch_twitch_token_of_ok tok ht, ho,
        hfind, successRedirect]

/-- Closed witness for `callback_redirects_on_success`: the silent no-op path
(200 from the user-info endpoint, no profile). -/
theorem callback_redirects_on_success_witness :
    (callback sampleSettings [("code", "c"), ("state", "s")] [("twitch_state", "s")]
        ⟨200, []⟩ ⟨200, some []⟩ []).result =
      .ok { statusCode := redirectStatusCode
            url := sampleSettings.FRONTEND_URL ++ "/configurator"
            deletedCookies := ["twitch_state"] } :=
  callback_redirects_on_success sampleSettings _ _ _ _ []
    (by decide) (by decide) (by decide) (by decide) (by decide) (by decide)

/-- C10: a 200 token-endpoint answer whose body lacks `access_token` and
`refresh_token` is not rejected: the callback still issues the user-info call
with the missing (`None`) bearer credential and, when a profile for a fresh
`twitch_id` comes back, inserts a `User` row whose token fields are those
missing (`None`) values, finishing with the success redirect. -/
theorem callback_accepts_missing_token_fields (s : Settings)
    (qp ck : List (String × String)) (tok : UpstreamResponse)
    (ui : UserInfoResponse) (db : List User)
    (hq : qp.isEmpty = false)
    (hc : falsyOpt (getParam qp "code") = false)
    (hs : falsyOpt (getParam qp "state") = false)
    (hm : getParam qp "state" = getParam ck "twitch_state")
    (ht : tok.status = 200)
    (ha : dictGet tok.body "access_token" = none)
    (hr : dictGet tok.body "refresh_token" = none)
    (p : UserData) (hp : fetch_user_info ui = .ok (some p))
    (hnew : ∀ u ∈ db, u.twitch_id ≠ p.id) :
    (callback s qp ck tok ui db).calls =
      [.tokenPost (tokenRequestData s ((getParam qp "code").getD "")),
       .userInfoGet none] ∧
    (callback s qp ck tok ui db).db =
      db ++ [{ id := db.length
               twitch_id := p.id
               username := p.username
               twitch_display_name := p.display_name
               avatar_url := p.avatar_url
               twitch_access_token := none
               twitch_refresh_token := none }] ∧
    (callback s qp ck tok ui db).result =
      .ok { statusCode := redirectStatusCode
            url := s.FRONTEND_URL ++ "/configurator"
            deletedCookies := ["twitch_state"] } := by
  simp [callback, hq, hc, hs, hm, hm ▸ hs, fetch_twitch_token_of_ok tok ht, hp,
    findUserByTwitchId_eq_none db p.id hnew, ha, hr, successRedirect]

/-- Closed witness for `callback_accepts_missing_token_fields`. -/
theorem callback_accepts_missing_token_fields_witness :
    (callback sampleSettings [("code", "c"), ("state", "s")] [("twitch_state", "s")]
        ⟨200, [("scope", "x")]⟩ ⟨200, some [⟨"7", "bob", "Bob", "http://b"⟩]⟩ []).calls =
      [.tokenPost (tokenRequestData sampleSettings "c"), .userInfoGet none] ∧
    (callback sampleSettings [("code", "c"), ("state", "s")] [("twitch_state", "s")]
        ⟨200, [("scope", "x")]⟩ ⟨200, some [⟨"7", "bob", "Bob", "http://b"⟩]⟩ []).db =
      [{ id := 0
         twitch_id := "7"
         username := "bob"
         twitch_display_name := "Bob"
         avatar_url := "http://b"
         twitch_access_token := none
         twitch_refresh_token := none }] ∧
    (callback sampleSettings [("code", "c"), ("state", "s")] [("twitch_state", "s")]
        ⟨200, [("scope", "x")]⟩ ⟨200, some [⟨"7", "bob", "Bob", "http://b"⟩]⟩ []).result =
      .ok { statusCode := redirectStatusCode
            url := sampleSettings.FRONTEND_URL ++ "/configurator"
            deletedCookies := ["twitch_state"] } :=
  callback_accepts_missing_token_fields sampleSettings _ _ _ _ []
    (by decide) (by decide) (by decide) (by decide) (by decide) (by decide) (by decide)
    ⟨"7", "bob", "Bob", "http://b"⟩ rfl (by decide)

/-- On every path, the callback either leaves the database unchanged or
appends one row whose `twitch_id` had no match among the stored rows. -/
theorem callback_db_unchanged_or_insert (s : Settings)
    (qp ck : List (String × String)) (tok : UpstreamResponse)
    (ui : UserInfoResponse) (db : List User) :
    (callback s qp ck tok ui db).db = db ∨
    ∃ p : UserData, findUserByTwitchId db p.id = none ∧
      (callback s qp ck tok ui db).db =
        db ++ [{ id := db.length
                 twitch_id := p.id
                 username := p.username
                 twitch_display_name := p.display_name
                 avatar_url := p.avatar_url
                 twitch_access_token := dictGet tok.body "access_token"
                 twitch_refresh_token := dictGet tok.body "refresh_token" }] := by
  by_cases hq : qp.isEmpty
  · exact Or.inl (by simp [callback, hq])
  by_cases hc : falsyOpt (getParam qp "code") = true
  · exact Or.inl (by simp [callback, hq, hc])
  by_cases hs : falsyOpt (getParam qp "state") = true
  · exact Or.inl (by simp [callback, hq, hs])
  by_cases hm : getParam qp "state" = getParam ck "twitch_state"
  case neg => exact Or.inl (by simp [callback, hq, hm])
  have hc2 : falsyOpt (getParam qp "code") = false := by simpa using hc
  have hs2 : falsyOpt (getParam qp "state") = false := by simpa using hs
  cases htok : fetch_twitch_token tok with
  | error st =>
    exact Or.inl (by simp [callback, hq, hc2, hs2, hm, hm ▸ hs2, htok])
  | ok body =>
    have hbody : body = tok.body := by
      unfold fetch_twitch_token at htok
      split at htok
      · cases htok
      · exact (Except.ok.inj htok).symm
    cases hui : fetch_user_info ui with
    | error st =>
      exact Or.inl (by simp [callback, hq, hc2, hs2, hm, hm ▸ hs2, htok, hui])
    | ok o =>
      cases o with
      | none =>
        exact Or.inl (by simp [callback, hq, hc2, hs2, hm, hm ▸ hs2, htok, hui])
      | some p =>
        cases hfind : findUserByTwitchId db p.id with
        | some w =>
          exact Or.inl (by simp [callback, hq, hc2, hs2, hm, hm ▸ hs2, htok, hui, hfind])
        | none =>
          refine Or.inr ⟨p, hfind, ?_⟩
          simp [callback, hq, hc2, hs2, hm, hm ▸ hs2, htok, hui, hfind, hbody]

/-- C9: the invariant "at most one `User` row per distinct `twitch_id`" is
preserved by every operation: starting from any database satisfying it,
login, callback (on every outcome path) and refresh leave a database that
still satisfies it. -/
theorem step_preserves_uniqueTwitchIds (s : Settings) (db : List User) (op : Op)
    (h : uniqueTwitchIds db) : uniqueTwitchIds (step s db op) := by
  cases op with
  | loginOp pick => exact h
  | refreshOp rt resp => exact h
  | callbackOp qp ck tok ui =>
    show uniqueTwitchIds (callback s qp ck tok ui db).db
    rcases callback_db_unchanged_or_insert s qp ck tok ui db with heq | ⟨p, hfind, heq⟩
    · rw [heq]; exact h
    · have hfil : db.filter (fun v => v.twitch_id = p.id) = [] := by
        simpa [findUserByTwitchId, List.head?_eq_none_iff] using hfind
      have hnone : ∀ u ∈ db, u.twitch_id ≠ p.id := by
        intro u hu hid
        have hmem : u ∈ db.filter (fun v => v.twitch_id = p.id) := by
          simp [List.mem_filter, hu, hid]
        simp [hfil] at hmem
      rw [heq]
      unfold uniqueTwitchIds at h ⊢
      rw [List.pairwise_append]
      refine ⟨h, by simp, ?_⟩
      intro a ha b hb
      simp only [List.mem_singleton] at hb
      subst hb
      exact hnone a ha

/-- Closed witness for `step_preserves_uniqueTwitchIds`: a successful
new-user callback starting from the empty store. -/
theorem step_preserves_uniqueTwitchIds_witness :
    uniqueTwitchIds ([] : List User) ∧
    uniqueTwitchIds (step sampleSettings []
      (.callbackOp [("code", "c"), ("state", "s")] [("twitch_state", "s")]
        ⟨200, [("access_token", "at"), ("refresh_token", "rt")]⟩
        ⟨200, some [⟨"42", "alice", "Alice", "http://a"⟩]⟩)) :=
  ⟨List.Pairwise.nil,
   step_preserves_uniqueTwitchIds sampleSettings [] _ List.Pairwise.nil⟩

/-- C5: every login response is a redirect (HTTP 302, as the spec records the
framework's redirect constructor) to the Twitch authorization URL, and the
`state` value embedded in that URL's query string is exactly the value set in
the `twitch_state` cookie of the same response. -/
theorem login_redirect_state_matches_cookie (s : Settings) (pick : Nat → Nat) :
    (twitch_login s pick).statusCode = redirectStatusCode ∧
    (twitch_login s pick).cookieName = "twitch_state" ∧
    (twitch_login s pick).redirectUrl =
      "https://id.twitch.tv/oauth2/authorize?" ++
        urlencode (authQueryParams s ((twitch_login s pick).cookieValue)) ∧
    getQueryValue (twitch_login s pick).redirectUrl "state" =
      some ((twitch_login s pick).cookieValue) := by
  refine ⟨rfl, rfl, rfl, ?_⟩
  show getQueryValue ("https://id.twitch.tv/oauth2/authorize?" ++
      urlencode (authQueryParams s (generate_random_string pick 16))) "state" =
    some (generate_random_string pick 16)
  exact getQueryValue_auth_url s _ (generate_mem_alphabet pick 16)

end Valory
